import Mathlib

/-!
Shallow embedding of the Bluetooth serial connection manager of the BlockJr
repository: the TypeScript service wrapper src/utils/bluetoothService.ts
(the revision that implements the single-flight scan promise; an earlier
revision of the same file is kept in the repository and is referenced where
the two revisions differ) and the Android plugin BluetoothSerialPlugin.java.

Asynchronous plugin calls are modelled by passing the resolution of each
awaited promise as an explicit argument of type PluginRes; module-level
mutable variables become explicit state arguments and results.
-/

deriving instance DecidableEq for Except

namespace BlockJr

/-- Device record of the service layer: interface DeviceItem in
bluetoothService.ts, with the optional name field. -/
structure DeviceItem where
  id : String
  name : Option String
deriving Repr, DecidableEq

/-- Resolution of an awaited plugin promise: it either resolves with a value
or rejects (throws at the await site). -/
inductive PluginRes (α : Type) where
  | ok (a : α)
  | err
deriving Repr, DecidableEq

/-! Scanner: scanForDevices, bluetoothService.ts (single-flight revision).
The module-level variable scanningPromise holds the in-flight promise or
null; the slot model below tracks the identity of that promise by an
allocation counter, since concurrent callers observe promise identity. -/

/-- State of the module-level scanningPromise slot of bluetoothService.ts.
The field scanningPromise holds the id of the in-flight promise, or none when
the variable is null; nextPromiseId is the allocator for fresh promises. -/
structure ScanSlotState where
  scanningPromise : Option Nat
  nextPromiseId : Nat
deriving Repr, DecidableEq

/-- The two transitions scanForDevices performs on the scanningPromise slot:
a call to scanForDevices, and the completion of the in-flight session, which
runs the finally block that sets scanningPromise back to null. -/
inductive ScanSlotOp where
  | call
  | complete
deriving Repr, DecidableEq

/-- Step function of the scanningPromise slot, translated from scanForDevices:
a call finding an in-flight promise returns that same promise and changes
nothing; a call finding the slot empty allocates a fresh promise and stores
it; completion (the finally block, reached on success, retry exhaustion and
thrown errors alike) clears the slot. The second component is the promise
handed to the caller of a call step. -/
def scanSlotStep (s : ScanSlotState) : ScanSlotOp → ScanSlotState × Option Nat
  | .call =>
    match s.scanningPromise with
    | some p => (s, some p)
    | none =>
      ({ scanningPromise := some s.nextPromiseId, nextPromiseId := s.nextPromiseId + 1 },
       some s.nextPromiseId)
  | .complete => ({ s with scanningPromise := none }, none)

/-- Body of one scan session, translated from the async block inside
scanForDevices. The scan source src gives the resolution of the n-th
await BluetoothSerial.scan() call (through attemptScanOnce, which maps the
raw device array to DeviceItem and rethrows scan errors). The isEnabled
pre-check of the source cannot alter control flow: both the enabled:false
throw and a failing isEnabled call land in the catch that only logs a
warning, so it is omitted here. Result: (outcome, number of native scan
queries, milliseconds waited between passes). The first pass resolving empty
triggers the 1200 ms wait and exactly one retry whose result (or error) is
returned; a non-empty first pass is returned directly. -/
def scanSessionBody (src : Nat → Except String (List DeviceItem)) :
    Except String (List DeviceItem) × Nat × Nat :=
  match src 0 with
  | .error e => (.error e, 1, 0)
  | .ok devices =>
    if devices.length = 0 then
      match src 1 with
      | .error e => (.error e, 2, 1200)
      | .ok retryDevices => (.ok retryDevices, 2, 1200)
    else (.ok devices, 1, 0)

/-- Top of scanForDevices for a call that finds no scan in flight: the web
platform short-circuits to an empty list with no plugin call, otherwise the
session body runs. Result: (outcome, number of native scan calls). -/
def scanForDevices (isNative : Bool) (src : Nat → Except String (List DeviceItem)) :
    Except String (List DeviceItem) × Nat :=
  if isNative = false then (.ok [], 0)
  else ((scanSessionBody src).1, (scanSessionBody src).2.1)

/-! ConnectionStateMachine: connect, isConnected, sendString of
bluetoothService.ts. The module variable connectedDeviceId is threaded as an
explicit Option String; the third component of each result counts the plugin
calls performed. -/

/-- Translation of connect(deviceId). The source performs no check of the
current connection state: it always awaits BluetoothSerial.connect, then
overwrites connectedDeviceId with the new device, then awaits isConnected to
verify; any rejection is caught, sets connectedDeviceId to null and returns
false. connectRes resolves the connect call, isConnectedRes the verification
call. Result: (new connectedDeviceId, returned boolean, plugin calls). -/
def connect (isNative : Bool) (connectRes : PluginRes Unit) (isConnectedRes : PluginRes Bool)
    (connectedDeviceId : Option String) (deviceId : String) :
    Option String × Bool × Nat :=
  if isNative = false then (connectedDeviceId, false, 0)
  else
    match connectRes with
    | .err => (none, false, 1)
    | .ok _ =>
      match isConnectedRes with
      | .err => (none, false, 2)
      | .ok connected =>
        if connected then (some deviceId, true, 2) else (none, false, 2)

/-- Translation of isConnected(): false with no plugin call on web or when no
device id is recorded; otherwise the plugin is queried once, a rejection or a
false answer clears connectedDeviceId. -/
def isConnected (isNative : Bool) (connectedDeviceId : Option String)
    (isConnectedRes : PluginRes Bool) : Option String × Bool × Nat :=
  if isNative = false then (connectedDeviceId, false, 0)
  else
    match connectedDeviceId with
    | none => (none, false, 0)
    | some d =>
      match isConnectedRes with
      | .err => (none, false, 1)
      | .ok connected => (if connected then some d else none, connected, 1)

/-- Observable outcome of sendString: the call result, the exact value handed
to BluetoothSerial.write when it is called, and the number of plugin calls. -/
structure SendOutcome where
  result : Except String Unit
  written : Option String
  pluginCalls : Nat
deriving Repr, DecidableEq

/-- Translation of sendString(text): throws off the native platform, throws
when no device id is recorded, and otherwise builds the payload as
(text ?? empty) + a newline character and hands exactly that payload to
BluetoothSerial.write; a write rejection is logged and rethrown. -/
def sendString (isNative : Bool) (connectedDeviceId : Option String)
    (writeRes : PluginRes Unit) (text : String) : SendOutcome :=
  if isNative = false then ⟨.error "Not native platform", none, 0⟩
  else
    match connectedDeviceId with
    | none => ⟨.error "Not connected", none, 0⟩
    | some _ =>
      match writeRes with
      | .ok _ => ⟨.ok (), some (text ++ "\n"), 1⟩
      | .err => ⟨.error "write failed", some (text ++ "\n"), 1⟩

/-! EventListenerRegistry: the three start/stop listener pairs of
bluetoothService.ts. startDataListener, startDisconnectListener and
startEnabledListener share one shape, as do the three stop functions; the
registry below holds the three module-level handle variables and the shared
shape is given once, parameterised by the event kind. -/

/-- The three event kinds the service subscribes to. -/
inductive EventKind where
  | data
  | disconnect
  | enabledChange
deriving Repr, DecidableEq

/-- A stored subscription handle: the identity of the user handler it wraps
and whether its remove() call rejects. -/
structure ListenerHandle where
  handlerId : Nat
  removeFails : Bool
deriving Repr, DecidableEq

/-- The three module-level handle variables dataListener, disconnectListener
and enabledListener of bluetoothService.ts. -/
structure Registry where
  dataListener : Option ListenerHandle
  disconnectListener : Option ListenerHandle
  enabledListener : Option ListenerHandle
deriving Repr, DecidableEq

/-- The module variable holding the handle for a given event kind. -/
def getSlot (r : Registry) : EventKind → Option ListenerHandle
  | .data => r.dataListener
  | .disconnect => r.disconnectListener
  | .enabledChange => r.enabledListener

/-- Assignment to the module variable for a given event kind. -/
def setSlot (r : Registry) : EventKind → Option ListenerHandle → Registry
  | .data, v => { r with dataListener := v }
  | .disconnect, v => { r with disconnectListener := v }
  | .enabledChange, v => { r with enabledListener := v }

/-- Shared shape of startDataListener, startDisconnectListener and
startEnabledListener: return at once off the native platform; return at once
when a handle is already stored (the early return on the module variable);
otherwise await BluetoothSerial.addListener — created is its resolution, a
handle wrapping the subscription made for the handler passed by the caller —
and store the handle, a rejection being caught and leaving the slot null.
Result: (new registry, number of addListener plugin calls). -/
def startListener (k : EventKind) (isNative : Bool) (created : PluginRes ListenerHandle)
    (r : Registry) : Registry × Nat :=
  if isNative = false then (r, 0)
  else
    match getSlot r k with
    | some _ => (r, 0)
    | none =>
      match created with
      | .ok h => (setSlot r k (some h), 1)
      | .err => (r, 1)

/-- Result of awaiting listener.remove(): rejects when the underlying release
fails. -/
def handleRemove (h : ListenerHandle) : Except String Unit :=
  if h.removeFails then .error "remove failed" else .ok ()

/-- The guarded release in the stop functions: try await listener.remove()
with a catch that ignores the rejection, so the surrounding call never sees
the failure. -/
def removeIgnoringErrors (h : ListenerHandle) : Unit :=
  match handleRemove h with
  | .ok _ => ()
  | .error _ => ()

/-- Shared shape of stopDataListener, stopDisconnectListener and
stopEnabledListener: an empty slot returns at once; otherwise remove() is
invoked once inside the ignoring try, and the slot is set to null. Result:
(new registry, number of release invocations, whether an exception escaped
to the caller). -/
def stopListener (k : EventKind) (r : Registry) : Registry × Nat × Bool :=
  match getSlot r k with
  | none => (r, 0, false)
  | some h =>
    let _ := removeIgnoringErrors h
    (setSlot r k none, 1, false)

/-- Invocations of user handlers performed when the native source fires one
event of kind k: notifyListeners calls the stored callback, which calls the
handler wrapped by the stored handle; with no handle nothing is invoked.
Each element records (handler id, event payload). -/
def deliver (r : Registry) (k : EventKind) (ev : String) : List (Nat × String) :=
  match getSlot r k with
  | some h => [(h.handlerId, ev)]
  | none => []

/-! Callback wrapping: the event callback passed to addListener by
startDataListener. In the single-flight revision the callback logs and then
calls the user handler directly; the earlier revision of the file wrapped
the handler call in a try/catch that only warned. -/

/-- The event object a data event carries: a value field, a data field, and
the raw object itself used as last fallback by the nullish coalescing. -/
structure DataEvent where
  value : Option String
  dataField : Option String
  raw : String
deriving Repr, DecidableEq

/-- The argument handed to the user handler: ev.value, else ev.data, else the
event object itself. -/
def coalesceDataEvent (ev : DataEvent) : String :=
  match ev.value with
  | some v => v
  | none =>
    match ev.dataField with
    | some d => d
    | none => ev.raw

/-- The callback registered by startDataListener in the single-flight
revision: it invokes the user handler directly, with no try/catch around the
call, so the handler outcome is the callback outcome. -/
def dataCallback (onData : String → Except String Unit) (ev : DataEvent) :
    Except String Unit :=
  onData (coalesceDataEvent ev)

/-- The callback of the earlier revision of startDataListener, which wraps
the handler call in a try/catch that only logs a warning: the callback
always returns normally to the event source. -/
def dataCallbackWrapped (onData : String → Except String Unit) (ev : DataEvent) :
    Except String Unit :=
  match onData (coalesceDataEvent ev) with
  | .ok _ => .ok ()
  | .error _ => .ok ()

/-! Android plugin BluetoothSerialPlugin.java: the discovery receiver that
collects devices, the read thread, and the disconnect() plugin method. -/

/-- Device record built by the discovery receiver: the JSObject with the
address as id and the name, or the string Unknown when the name is null. -/
structure JDevice where
  id : String
  name : String
deriving Repr, DecidableEq

/-- ACTION_FOUND branch of discoveryReceiver: builds the device record and
appends it to discoveredDevices; no existing entry is looked up or
replaced. -/
def onDeviceFound (acc : List JDevice) (address : String) (name : Option String) :
    List JDevice :=
  acc ++ [{ id := address, name := name.getD "Unknown" }]

/-- Contents of discoveredDevices after a discovery pass that received the
given ACTION_FOUND broadcasts (address, nullable name) in order, starting
from the cleared list; this is the list the scan call resolves with. -/
def collectDiscovered (found : List (String × Option String)) : List JDevice :=
  found.foldl (fun acc f => onDeviceFound acc f.1 f.2) []

/-- Events the plugin emits through notifyListeners. -/
inductive BTEvent where
  | data (s : String)
  | disconnect
  | enabledChange (enabled : Bool)
deriving Repr, DecidableEq

/-- How the read loop of the read thread stops blocking on in.read. -/
inductive ReadEnd where
  | eof
  | ioError
  | cancelled
deriving Repr, DecidableEq

/-- Events the read thread emits over one run, translated from
startReadThread: each successful read of a chunk is decoded and emitted as
one data event; the loop then exits because read returned end of stream, or
read threw an IOException (caught and only logged), or the loop condition
found the socket cleared or closed after a disconnect() call. Every one of
these exit paths falls through the finally block, which closes the socket,
nulls the connection fields and emits one disconnect event; the thread then
terminates and nothing restarts it. -/
def readerRun (chunks : List String) : ReadEnd → List BTEvent
  | .eof => chunks.map BTEvent.data ++ [BTEvent.disconnect]
  | .ioError => chunks.map BTEvent.data ++ [BTEvent.disconnect]
  | .cancelled => chunks.map BTEvent.data ++ [BTEvent.disconnect]

/-- Events emitted by the body of the disconnect() plugin method itself: it
stops the read thread, closes the socket and then calls
notifyListeners with one disconnect event of its own. -/
def disconnectMethodEvents : List BTEvent := [BTEvent.disconnect]

/-- All disconnect-path events observed when disconnect() is called against a
live connection whose read thread is running: the method emits its own event
and the read thread, unblocked by the socket being closed and nulled, exits
its loop and emits the event of its finally block. Interleaving does not
affect the count, so the two contributions are concatenated. -/
def explicitDisconnectEvents (chunks : List String) (ending : ReadEnd) : List BTEvent :=
  disconnectMethodEvents ++ readerRun chunks ending

/-- Number of disconnect events in an emission trace. -/
def countDisconnects (evs : List BTEvent) : Nat :=
  evs.countP (fun e => match e with | .disconnect => true | _ => false)

/-! Helper lemmas shared by the theorems below. -/

/-- Reading back the slot just written. -/
lemma getSlot_setSlot (r : Registry) (k : EventKind) (v : Option ListenerHandle) :
    getSlot (setSlot r k v) k = v := by
  cases k <;> rfl

/-- Data events contribute nothing to the disconnect count. -/
lemma countDisconnects_map_data (chunks : List String) :
    countDisconnects (chunks.map BTEvent.data) = 0 := by
  induction chunks with
  | nil => rfl
  | cons c cs ih =>
    simp [countDisconnects, List.countP_cons] at ih ⊢

/-- The disconnect count distributes over concatenation. -/
lemma countDisconnects_append (l₁ l₂ : List BTEvent) :
    countDisconnects (l₁ ++ l₂) = countDisconnects l₁ + countDisconnects l₂ := by
  simp [countDisconnects, List.countP_append]

/-- Folding the found handler over a pass appends one record per broadcast. -/
lemma collectDiscovered_from (acc : List JDevice) (found : List (String × Option String)) :
    found.foldl (fun a f => onDeviceFound a f.1 f.2) acc
      = acc ++ found.map (fun f => ⟨f.1, f.2.getD "Unknown"⟩) := by
  induction found generalizing acc with
  | nil => simp
  | cons f fs ih =>
    rw [List.foldl_cons, ih]
    simp [onDeviceFound]

/-- C1. While a scan session is in flight every further call to
scanForDevices returns the same pending promise and leaves the slot
unchanged; completion of the session clears the slot; a call after
completion allocates a fresh promise distinct from the finished one, so a
later scan starts a fresh discovery. -/
theorem scan_single_flight (s : ScanSlotState) (p : Nat)
    (hin : s.scanningPromise = some p) (hfresh : p < s.nextPromiseId) :
    scanSlotStep s .call = (s, some p)
    ∧ scanSlotStep (scanSlotStep s .call).1 .call = (s, some p)
    ∧ (scanSlotStep s .complete).1.scanningPromise = none
    ∧ (scanSlotStep (scanSlotStep s .complete).1 .call).2 = some s.nextPromiseId
    ∧ (scanSlotStep (scanSlotStep s .complete).1 .call).1.scanningPromise
        = some s.nextPromiseId
    ∧ s.nextPromiseId ≠ p := by
  have h1 : scanSlotStep s .call = (s, some p) := by
    simp [scanSlotStep, hin]
  refine ⟨h1, ?_, ?_, ?_, ?_, ?_⟩
  · rw [h1]; exact h1
  · simp [scanSlotStep]
  · simp [scanSlotStep]
  · simp [scanSlotStep]
  · omega

/-- Witness for C1 at the concrete state holding promise 0 with allocator 1. -/
theorem scan_single_flight_witness :
    scanSlotStep ⟨some 0, 1⟩ .call = (⟨some 0, 1⟩, some 0)
    ∧ (scanSlotStep (⟨some 0, 1⟩ : ScanSlotState) .complete).1.scanningPromise = none := by
  have h := scan_single_flight ⟨some 0, 1⟩ 0 rfl (by decide)
  exact ⟨h.1, h.2.2.1⟩

/-- C3. The scan session queries the native scan source at most twice; a
non-empty first pass is returned directly with one query and no waiting; an
empty first pass waits 1200 ms and performs exactly one retry whose result,
possibly still empty, or whose error, is what the session returns. -/
theorem scan_retry_policy (src : Nat → Except String (List DeviceItem)) :
    (scanSessionBody src).2.1 ≤ 2
    ∧ (∀ l, src 0 = .ok l → l ≠ [] → scanSessionBody src = (.ok l, 1, 0))
    ∧ (src 0 = .ok [] →
        (scanSessionBody src).2.1 = 2
        ∧ (scanSessionBody src).2.2 = 1200
        ∧ (∀ r, src 1 = .ok r → (scanSessionBody src).1 = .ok r)
        ∧ (∀ e, src 1 = .error e → (scanSessionBody src).1 = .error e)) := by
  refine ⟨?_, ?_, ?_⟩
  · unfold scanSessionBody
    rcases h0 : src 0 with e | l
    · simp
    · rcases h1 : src 1 with e1 | l1 <;> by_cases hl : l.length = 0 <;> simp [hl]
  · intro l h0 hne
    have hl : ¬ l.length = 0 := by
      simpa [List.length_eq_zero] using hne
    simp [scanSessionBody, h0, hl]
  · intro h0
    refine ⟨?_, ?_, ?_, ?_⟩
    · unfold scanSessionBody
      rcases h1 : src 1 with e1 | l1 <;> simp [h0, h1]
    · unfold scanSessionBody
      rcases h1 : src 1 with e1 | l1 <;> simp [h0, h1]
    · intro r h1
      simp [scanSessionBody, h0, h1]
    · intro e h1
      simp [scanSessionBody, h0, h1]

/-- Witness for C3: a source whose first pass already yields the single
device list is returned as that exact list after one query with no wait. -/
theorem scan_retry_policy_witness :
    scanSessionBody (fun _ => .ok [⟨"AA:BB", some "Widget"⟩])
      = (.ok [⟨"AA:BB", some "Widget"⟩], 1, 0) :=
  (scan_retry_policy (fun _ => .ok [⟨"AA:BB", some "Widget"⟩])).2.1
    [⟨"AA:BB", some "Widget"⟩] rfl (by simp)

/-- C2, counterexample. With the connection state Connected at device AA:BB,
a connect call for CC:DD whose plugin calls succeed returns true and moves
the recorded device to CC:DD: it neither returns false nor leaves the
existing connection untouched, so the claimed connect exclusivity fails. -/
theorem connect_exclusivity_cex :
    connect true (.ok ()) (.ok true) (some "AA:BB") "CC:DD" = (some "CC:DD", true, 2)
    ∧ ¬ ((connect true (.ok ()) (.ok true) (some "AA:BB") "CC:DD").2.1 = false
         ∧ (connect true (.ok ()) (.ok true) (some "AA:BB") "CC:DD").1 = some "AA:BB") := by
  constructor
  · rfl
  · intro h
    exact absurd h.1 (by decide)

/-- C2, amended. The native connect path never reads the current connection
state: a connect issued while Connecting or Connected behaves exactly as one
issued from Idle, and when both plugin calls succeed it returns true and
replaces the recorded connection with the new device, whatever was recorded
before. -/
theorem connect_ignores_prior_state (connectRes : PluginRes Unit)
    (isConnectedRes : PluginRes Bool) (st : Option String) (deviceId : String) :
    connect true connectRes isConnectedRes st deviceId
      = connect true connectRes isConnectedRes none deviceId
    ∧ connect true (.ok ()) (.ok true) st deviceId = (some deviceId, true, 2) := by
  constructor
  · cases connectRes <;> cases isConnectedRes <;> rfl
  · rfl

/-- C4, counterexample. An explicit disconnect() against a live connection
produces two disconnect events, not one: the method body emits its own event
and the cancelled read thread emits the event of its finally block. -/
theorem reader_disconnect_duplication_cex :
    countDisconnects (explicitDisconnectEvents [] .cancelled) = 2
    ∧ countDisconnects (explicitDisconnectEvents [] .cancelled) ≠ 1 := by
  constructor
  · rfl
  · decide

/-- C4, amended. The read thread itself, on any exit — read error, end of
stream, or cancellation by disconnect() — emits exactly one disconnect event,
as the last event of its run, and terminates; but an explicit disconnect()
call adds a second disconnect event of its own, so the disconnect path as a
whole emits two events for the one connection instance. -/
theorem reader_loop_disconnect_events (chunks : List String) (ending : ReadEnd) :
    countDisconnects (readerRun chunks ending) = 1
    ∧ (readerRun chunks ending).getLast? = some .disconnect
    ∧ countDisconnects (explicitDisconnectEvents chunks ending) = 2 := by
  have hrun : readerRun chunks ending = chunks.map BTEvent.data ++ [BTEvent.disconnect] := by
    cases ending <;> rfl
  have hcount : countDisconnects (readerRun chunks ending) = 1 := by
    rw [hrun, countDisconnects_append, countDisconnects_map_data]
    rfl
  refine ⟨hcount, ?_, ?_⟩
  · rw [hrun]
    simp
  · rw [explicitDisconnectEvents, countDisconnects_append, hcount]
    rfl

/-- C5, counterexample. Two ACTION_FOUND broadcasts for the same address
leave two entries with that id in the resolved device list: the receiver
appends unconditionally, so the list is not deduplicated by id. -/
theorem scan_dedup_cex :
    collectDiscovered [("AA:BB", some "Widget"), ("AA:BB", some "Gadget")]
      = [⟨"AA:BB", "Widget"⟩, ⟨"AA:BB", "Gadget"⟩]
    ∧ ¬ ((collectDiscovered [("AA:BB", some "Widget"), ("AA:BB", some "Gadget")]).countP
          (fun d => d.id == "AA:BB") ≤ 1) := by
  constructor
  · rfl
  · decide

/-- C5, amended. The discovery receiver collects devices in the order found
with no deduplication: each broadcast contributes exactly one entry keeping
its own reported name, so the resolved list has one entry per broadcast and
an id reported n times appears n times. -/
theorem scan_collect_no_dedup (found : List (String × Option String)) :
    (collectDiscovered found).map (fun d => d.id) = found.map Prod.fst
    ∧ (collectDiscovered found).length = found.length := by
  have h := collectDiscovered_from [] found
  rw [collectDiscovered, h]
  constructor
  · simp
  · simp

/-- C6. Calling a start function for a kind whose slot already holds a
handle is a no-op: the registry is unchanged, addListener is not called so
no second subscription is created, and events of that kind are still
delivered to the originally registered handler alone, never to the new
one. -/
theorem start_idempotent (k : EventKind) (r : Registry) (hA : ListenerHandle)
    (createdB : PluginRes ListenerHandle) (h : getSlot r k = some hA) :
    startListener k true createdB r = (r, 0)
    ∧ getSlot (startListener k true createdB r).1 k = some hA
    ∧ (∀ ev, deliver (startListener k true createdB r).1 k ev = [(hA.handlerId, ev)]) := by
  have h1 : startListener k true createdB r = (r, 0) := by
    simp [startListener, h]
  refine ⟨h1, ?_, ?_⟩
  · rw [h1]; exact h
  · intro ev
    rw [h1]
    simp [deliver, h]

/-- Witness for C6 at a registry whose data slot holds the handle of handler
1 while handler 2 attempts a second registration. -/
theorem start_idempotent_witness :
    startListener .data true (.ok ⟨2, false⟩) ⟨some ⟨1, false⟩, none, none⟩
      = (⟨some ⟨1, false⟩, none, none⟩, 0)
    ∧ deliver (startListener .data true (.ok ⟨2, false⟩)
        ⟨some ⟨1, false⟩, none, none⟩).1 .data "hello" = [(1, "hello")] := by
  have h := start_idempotent .data ⟨some ⟨1, false⟩, none, none⟩ ⟨1, false⟩
    (.ok ⟨2, false⟩) rfl
  exact ⟨h.1, h.2.2 "hello"⟩

/-- C7. For every kind, stop never lets an exception escape; stop on an
empty slot is a no-op with no release; stop on an occupied slot releases
exactly once and clears the slot, even when the release itself fails; and a
second stop right after a first one changes nothing and releases nothing, so
two stops in a row equal one. -/
theorem stop_idempotent (k : EventKind) (r : Registry) :
    (stopListener k r).2.2 = false
    ∧ (getSlot r k = none → stopListener k r = (r, 0, false))
    ∧ (∀ h, getSlot r k = some h →
        (stopListener k r).2.1 = 1 ∧ getSlot (stopListener k r).1 k = none)
    ∧ stopListener k (stopListener k r).1 = ((stopListener k r).1, 0, false)
    ∧ (stopListener k r).2.1 ≤ 1 := by
  rcases hk : getSlot r k with _ | h
  · refine ⟨?_, ?_, ?_, ?_, ?_⟩ <;>
      simp [stopListener, hk]
  · refine ⟨?_, ?_, ?_, ?_, ?_⟩
    · simp [stopListener, hk]
    · intro hnone; cases hnone
    · intro h2 hsome
      simp [stopListener, hk, getSlot_setSlot]
    · simp [stopListener, hk, getSlot_setSlot]
    · simp [stopListener, hk]

/-- Witness for C7 at a registry whose data slot holds a handle whose
release fails: the stop still reports no escaped exception, releases once,
and a second stop is a no-op. -/
theorem stop_idempotent_witness :
    (stopListener .data ⟨some ⟨1, true⟩, none, none⟩).2.2 = false
    ∧ (stopListener .data ⟨some ⟨1, true⟩, none, none⟩).2.1 = 1
    ∧ stopListener .data (stopListener .data ⟨some ⟨1, true⟩, none, none⟩).1
        = ((stopListener .data ⟨some ⟨1, true⟩, none, none⟩).1, 0, false) := by
  have h := stop_idempotent .data ⟨some ⟨1, true⟩, none, none⟩
  exact ⟨h.1, (h.2.2.1 ⟨1, true⟩ rfl).1, h.2.2.2.1⟩

/-- C8, counterexample. In the registered data callback of the single-flight
revision a handler that raises makes the callback itself raise: the error is
handed back to the event source, not caught, so the claimed wrapping is
absent there. -/
theorem handler_wrap_cex :
    dataCallback (fun _ => .error "boom") ⟨some "x", none, "raw"⟩ = .error "boom"
    ∧ dataCallback (fun _ => .error "boom") ⟨some "x", none, "raw"⟩ ≠ .ok () := by
  constructor
  · rfl
  · intro h
    cases h

/-- C8, amended. The single-flight revision invokes the user handler with no
wrapper, so an error raised by the handler propagates as the outcome of the
registered callback; only the earlier revision of the file wrapped the call,
and its callback always returns normally. -/
theorem handler_error_propagates (onData : String → Except String Unit)
    (ev : DataEvent) (e : String) (h : onData (coalesceDataEvent ev) = .error e) :
    dataCallback onData ev = .error e
    ∧ dataCallbackWrapped onData ev = .ok () := by
  constructor
  · rw [dataCallback, h]
  · rw [dataCallbackWrapped, h]

/-- Witness for C8 with a handler that always raises. -/
theorem handler_error_propagates_witness :
    dataCallback (fun _ => .error "crash") ⟨none, some "y", "raw"⟩ = .error "crash"
    ∧ dataCallbackWrapped (fun _ => .error "crash") ⟨none, some "y", "raw"⟩ = .ok () :=
  handler_error_propagates (fun _ => .error "crash") ⟨none, some "y", "raw"⟩ "crash" rfl

/-- C9, counterexample. sendString hands PING followed by a newline to the
transport, not the caller text PING: the newline is appended by the core,
not left to the higher-level application. -/
theorem send_payload_cex :
    (sendString true (some "AA:BB") (.ok ()) "PING").written = some ("PING" ++ "\n")
    ∧ (sendString true (some "AA:BB") (.ok ()) "PING").written ≠ some "PING" := by
  constructor
  · rfl
  · decide

/-- C9, amended. For every caller text, sendString on the native platform
with a recorded connection hands the transport exactly the caller text with
one newline character appended, whether or not the write succeeds. -/
theorem send_appends_newline (d text : String) (writeRes : PluginRes Unit) :
    (sendString true (some d) writeRes text).written = some (text ++ "\n") := by
  cases writeRes <;> rfl

/-- C10. On a non-native platform every public operation short-circuits with
no plugin call: scanForDevices resolves to the empty list, connect resolves
to false with the state untouched, isConnected resolves to false, sendString
throws the not-native error without writing, and every listener start leaves
the registry unchanged. -/
theorem web_short_circuit (src : Nat → Except String (List DeviceItem))
    (connectRes : PluginRes Unit) (isConnectedRes : PluginRes Bool)
    (st : Option String) (deviceId : String) (writeRes : PluginRes Unit)
    (text : String) (k : EventKind) (created : PluginRes ListenerHandle)
    (r : Registry) :
    scanForDevices false src = (.ok [], 0)
    ∧ connect false connectRes isConnectedRes st deviceId = (st, false, 0)
    ∧ isConnected false st isConnectedRes = (st, false, 0)
    ∧ sendString false st writeRes text = ⟨.error "Not native platform", none, 0⟩
    ∧ startListener k false created r = (r, 0) := by
  refine ⟨rfl, rfl, rfl, rfl, rfl⟩

end BlockJr
